import Mathlib

/-!
Verification of the theme-resolution engine of `gpui-multiplatform-biorhythm`
(`src/main.rs`): platform tags, the `Theme` record, the per-platform palette
builders, the `darken_color` derivation, and the GTK preference probes.

Colors are 24-bit RGB values embedded as `Nat` (the `u32` handed to `rgb`).
`darken_color`'s scaling factor is embedded as an exact rational; for the two
factors the program ever uses (`0.9` and `1.0`) this agrees with the source's
`f32` evaluation at every 8-bit channel value: the relative rounding error of
`f32` multiplication by `0.9f32` is below `2 ^ (-25)`, less than half an ulp,
so the truncated result never crosses an integer boundary, and `1.0` is exact.
-/

/-- Embeds `enum Platform` (src/main.rs:40-44). -/
inductive Platform where
  | MacOS
  | Windows
  | Linux
deriving DecidableEq, Repr

/-- Embeds `struct Theme` (src/main.rs:62-98): color fields are 24-bit RGB
values as `Nat`; the one numeric metric `titlebar_height` is a rational. -/
structure Theme where
  titlebar_bg : Nat
  titlebar_border : Nat
  titlebar_height : ℚ
  close_button_bg : Nat
  close_button_corner : Nat
  minimize_button_bg : Nat
  minimize_button_corner : Nat
  maximize_button_bg : Nat
  maximize_button_corner : Nat
  background : Nat
  input_bg : Nat
  input_border : Nat
  input_border_focused : Nat
  input_text : Nat
  button_primary_bg : Nat
  button_primary_bg_hover : Nat
  button_primary_text : Nat
  button_secondary_bg : Nat
  button_secondary_bg_hover : Nat
  button_secondary_text : Nat
  button_secondary_border : Nat
  text_primary : Nat
  text_secondary : Nat
  text_error : Nat
deriving DecidableEq, Repr

/-- Embeds `Theme::darken_color` (src/main.rs:246-256): extract the three
8-bit channels, scale each by `factor`, truncate toward zero (Rust's
`as u32`, which also sends a negative float to `0`, matching
`Int.toNat ∘ Int.floor`), and recombine with shifts and ors. -/
def Theme.darken_color (color : Nat) (factor : ℚ) : Nat :=
  let r : Nat := (color >>> 16) &&& 0xFF
  let g : Nat := (color >>> 8) &&& 0xFF
  let b : Nat := color &&& 0xFF
  let r_dark : Nat := (Int.floor ((r : ℚ) * factor)).toNat
  let g_dark : Nat := (Int.floor ((g : ℚ) * factor)).toNat
  let b_dark : Nat := (Int.floor ((b : ℚ) * factor)).toNat
  (r_dark <<< 16) ||| (g_dark <<< 8) ||| b_dark

/-- Embeds `Theme::macos_with_preferences` (src/main.rs:171-243). -/
def Theme.macos_with_preferences (is_dark : Bool) (accent_color : Option Nat) : Theme :=
  let accent := accent_color.getD 0x007AFF
  let accent_hover := Theme.darken_color accent (9 / 10)
  if is_dark then
    { titlebar_bg := 0x202020
      titlebar_border := 0x1E1E1E
      titlebar_height := 22
      close_button_bg := 0xFF5F57
      close_button_corner := 0xE04943
      minimize_button_bg := 0xFF8D2E
      minimize_button_corner := 0xDEA123
      maximize_button_bg := 0x28C940
      maximize_button_corner := 0x1AAB29
      background := 0x1E1E1E
      input_bg := 0x2D2D2D
      input_border := 0x404040
      input_border_focused := accent
      input_text := 0xFFFFFF
      button_primary_bg := accent
      button_primary_bg_hover := accent_hover
      button_primary_text := 0xFFFFFF
      button_secondary_bg := 0x2D2D2D
      button_secondary_bg_hover := 0x383838
      button_secondary_text := 0xFFFFFF
      button_secondary_border := 0x505050
      text_primary := 0xFFFFFF
      text_secondary := 0xA0A0A0
      text_error := 0xFF6B6B }
  else
    { titlebar_bg := 0xE8E8E8
      titlebar_border := 0xD0D0D0
      titlebar_height := 22
      close_button_bg := 0xFF5F57
      close_button_corner := 0xE04943
      minimize_button_bg := 0xFF8D2E
      minimize_button_corner := 0xDEA123
      maximize_button_bg := 0x28C940
      maximize_button_corner := 0x1AAB29
      background := 0xEFEFEF
      input_bg := 0xFFFFFF
      input_border := 0xCCCCCC
      input_border_focused := accent
      input_text := 0x000000
      button_primary_bg := accent
      button_primary_bg_hover := accent_hover
      button_primary_text := 0xFFFFFF
      button_secondary_bg := 0xFFFFFF
      button_secondary_bg_hover := 0xF8F8F8
      button_secondary_text := 0x000000
      button_secondary_border := 0xB8B8B8
      text_primary := 0x000000
      text_secondary := 0x666666
      text_error := 0xCC0000 }

/-- Embeds `Theme::windows_with_preferences` (src/main.rs:288-359). -/
def Theme.windows_with_preferences (is_dark : Bool) (accent_color : Option Nat) : Theme :=
  let accent := accent_color.getD 0x0078D4
  let accent_hover := Theme.darken_color accent (9 / 10)
  if is_dark then
    { titlebar_bg := 0x202020
      titlebar_border := 0x1A1A1A
      titlebar_height := 32
      close_button_bg := 0xE81123
      close_button_corner := 0xC50F1F
      minimize_button_bg := 0x202020
      minimize_button_corner := 0x1A1A1A
      maximize_button_bg := 0x202020
      maximize_button_corner := 0x1A1A1A
      background := 0x1E1E1E
      input_bg := 0x2D2D2D
      input_border := 0x404040
      input_border_focused := accent
      input_text := 0xFFFFFF
      button_primary_bg := accent
      button_primary_bg_hover := accent_hover
      button_primary_text := 0xFFFFFF
      button_secondary_bg := 0x2D2D2D
      button_secondary_bg_hover := 0x383838
      button_secondary_text := 0xFFFFFF
      button_secondary_border := 0x505050
      text_primary := 0xFFFFFF
      text_secondary := 0xA0A0A0
      text_error := 0xFF6B6B }
  else
    { titlebar_bg := 0xF0F0F0
      titlebar_border := 0xDFDFDF
      titlebar_height := 32
      close_button_bg := 0xE81123
      close_button_corner := 0xC50F1F
      minimize_button_bg := 0xF0F0F0
      minimize_button_corner := 0xDFDFDF
      maximize_button_bg := 0xF0F0F0
      maximize_button_corner := 0xDFDFDF
      background := 0xFFFFFF
      input_bg := 0xFFFFFF
      input_border := 0x8A8A8A
      input_border_focused := accent
      input_text := 0x000000
      button_primary_bg := accent
      button_primary_bg_hover := accent_hover
      button_primary_text := 0xFFFFFF
      button_secondary_bg := 0xFFFFFF
      button_secondary_bg_hover := 0xF5F5F5
      button_secondary_text := 0x000000
      button_secondary_border := 0x8A8A8A
      text_primary := 0x000000
      text_secondary := 0x605E5C
      text_error := 0xA80000 }

/-- Modelled from the spec: `Theme::linux_with_preferences` is invoked by
`Theme::linux_system` (src/main.rs:371) but its definition is absent from the
source file. The spec (section 4.4) fixes its structure: a dark and a light
fixed literal color table, the accent resolved as
`accent_color.unwrap_or(platform fallback constant)` with the fallback a
platform-characteristic blue (Adwaita blue `0x3584E4` is the Linux blue the
spec names), `accent_hover = darken(accent, 0.9)`, and the accent and hover
substituted into `input_border_focused`, `button_primary_bg` and
`button_primary_bg_hover`. The non-accent literal constants below are
representative values in that structure; the spec does not fix them, and no
claim depends on them. -/
def Theme.linux_with_preferences (is_dark : Bool) (accent_color : Option Nat) : Theme :=
  let accent := accent_color.getD 0x3584E4
  let accent_hover := Theme.darken_color accent (9 / 10)
  if is_dark then
    { titlebar_bg := 0x2D2D2D
      titlebar_border := 0x1E1E1E
      titlebar_height := 32
      close_button_bg := 0xC01C28
      close_button_corner := 0xA51D2D
      minimize_button_bg := 0x2D2D2D
      minimize_button_corner := 0x1E1E1E
      maximize_button_bg := 0x2D2D2D
      maximize_button_corner := 0x1E1E1E
      background := 0x1E1E1E
      input_bg := 0x2D2D2D
      input_border := 0x404040
      input_border_focused := accent
      input_text := 0xFFFFFF
      button_primary_bg := accent
      button_primary_bg_hover := accent_hover
      button_primary_text := 0xFFFFFF
      button_secondary_bg := 0x2D2D2D
      button_secondary_bg_hover := 0x383838
      button_secondary_text := 0xFFFFFF
      button_secondary_border := 0x505050
      text_primary := 0xFFFFFF
      text_secondary := 0xA0A0A0
      text_error := 0xFF6B6B }
  else
    { titlebar_bg := 0xEBEBEB
      titlebar_border := 0xD0D0D0
      titlebar_height := 32
      close_button_bg := 0xC01C28
      close_button_corner := 0xA51D2D
      minimize_button_bg := 0xEBEBEB
      minimize_button_corner := 0xD0D0D0
      maximize_button_bg := 0xEBEBEB
      maximize_button_corner := 0xD0D0D0
      background := 0xFAFAFA
      input_bg := 0xFFFFFF
      input_border := 0xCCCCCC
      input_border_focused := accent
      input_text := 0x000000
      button_primary_bg := accent
      button_primary_bg_hover := accent_hover
      button_primary_text := 0xFFFFFF
      button_secondary_bg := 0xFFFFFF
      button_secondary_bg_hover := 0xF5F5F5
      button_secondary_text := 0x000000
      button_secondary_border := 0xB8B8B8
      text_primary := 0x000000
      text_secondary := 0x666666
      text_error := 0xCC0000 }

/-- The spec's Palette Builder `build(platform, prefs)` (section 4.4): the
dispatch mirrors the `match` in `Theme::new` (src/main.rs:100-107), with the
probed preferences supplied explicitly as the spec's `SystemPreferences`. -/
def Theme.build (platform : Platform) (is_dark : Bool) (accent_color : Option Nat) : Theme :=
  match platform with
  | .MacOS => Theme.macos_with_preferences is_dark accent_color
  | .Windows => Theme.windows_with_preferences is_dark accent_color
  | .Linux => Theme.linux_with_preferences is_dark accent_color

/-- The per-platform fallback accent constant each builder passes to
`unwrap_or`: macOS blue `0x007AFF` (src/main.rs:173), Windows blue `0x0078D4`
(src/main.rs:289), and the Linux blue of the modelled Linux builder. -/
def Theme.default_accent : Platform → Nat
  | .MacOS => 0x007AFF
  | .Windows => 0x0078D4
  | .Linux => 0x3584E4

/-- Embeds the non-macOS fallback `Theme::macos_system` (src/main.rs:166-169):
no preference API is available, so both preferences degrade to their defaults. -/
def Theme.macos_system : Theme :=
  Theme.macos_with_preferences false none

/-- Embeds the non-Windows fallback `Theme::windows_system`
(src/main.rs:283-286). -/
def Theme.windows_system : Theme :=
  Theme.windows_with_preferences false none

/-- The GTK settings object as seen by the probes (src/main.rs:374-405): the
source treats the theme name and the prefer-dark flag as nullable lookups. -/
structure GtkSettings where
  gtk_theme_name : Option String
  gtk_application_prefer_dark_theme : Option Bool

/-- The ambient GTK environment the Linux probes query: whether `gtk::init()`
succeeds, and what `Settings::default()` returns. -/
structure GtkEnv where
  init_ok : Bool
  settings : Option GtkSettings

/-- Substring containment, the meaning of Rust's `str::contains(&str)`. -/
def strContains (s pat : String) : Bool :=
  decide (pat.toList <:+: s.toList)

/-- The theme-name constant matched at src/main.rs:387. -/
def adwaitaName : String := "Adwaita"

/-- The theme-name constant matched at src/main.rs:389. -/
def elementaryName : String := "elementary"

/-- Embeds `Theme::get_gtk_accent_color` (src/main.rs:375-394): `None` when
GTK fails to initialize, when no settings object exists, or when the theme
name is absent or unrecognized; known theme-name substrings map to fixed
accent constants. -/
def Theme.get_gtk_accent_color (env : GtkEnv) : Option Nat :=
  if !env.init_ok then none
  else
    match env.settings with
    | none => none
    | some settings =>
      match settings.gtk_theme_name with
      | none => none
      | some theme_name =>
        if strContains theme_name adwaitaName then some 0x3584E4
        else if strContains theme_name elementaryName then some 0x3689E6
        else none

/-- Embeds `Theme::get_gtk_dark_mode` (src/main.rs:396-405): `false` when GTK
fails to initialize, otherwise the settings' prefer-dark flag with `false` as
the fallback at every missing step. -/
def Theme.get_gtk_dark_mode (env : GtkEnv) : Bool :=
  if !env.init_ok then false
  else (env.settings.bind fun s => s.gtk_application_prefer_dark_theme).getD false

/-- Embeds `Theme::linux_system` (src/main.rs:362-372): probe the GTK accent
color and dark-mode flag, then build the Linux palette from them. -/
def Theme.linux_system (env : GtkEnv) : Theme :=
  Theme.linux_with_preferences (Theme.get_gtk_dark_mode env) (Theme.get_gtk_accent_color env)

/-- The red channel of a 24-bit color, as `darken_color` extracts it. -/
def chanR (c : Nat) : Nat := (c >>> 16) &&& 0xFF

/-- The green channel of a 24-bit color, as `darken_color` extracts it. -/
def chanG (c : Nat) : Nat := (c >>> 8) &&& 0xFF

/-- The blue channel of a 24-bit color, as `darken_color` extracts it. -/
def chanB (c : Nat) : Nat := c &&& 0xFF

/-- One channel of `darken_color`: scale by the factor and truncate toward
zero exactly as the source's `(ch as f32 * factor) as u32`. -/
def darkChan (ch : Nat) (factor : ℚ) : Nat :=
  (Int.floor ((ch : ℚ) * factor)).toNat

/-- The spec's completeness reading of a built `Theme`: every color field
holds a concrete valid 24-bit value and the metric is a concrete positive
height. -/
def Theme.wellFormed (t : Theme) : Prop :=
  t.titlebar_bg < 2 ^ 24 ∧ t.titlebar_border < 2 ^ 24 ∧ 0 < t.titlebar_height ∧
  t.close_button_bg < 2 ^ 24 ∧ t.close_button_corner < 2 ^ 24 ∧
  t.minimize_button_bg < 2 ^ 24 ∧ t.minimize_button_corner < 2 ^ 24 ∧
  t.maximize_button_bg < 2 ^ 24 ∧ t.maximize_button_corner < 2 ^ 24 ∧
  t.background < 2 ^ 24 ∧
  t.input_bg < 2 ^ 24 ∧ t.input_border < 2 ^ 24 ∧
  t.input_border_focused < 2 ^ 24 ∧ t.input_text < 2 ^ 24 ∧
  t.button_primary_bg < 2 ^ 24 ∧ t.button_primary_bg_hover < 2 ^ 24 ∧
  t.button_primary_text < 2 ^ 24 ∧
  t.button_secondary_bg < 2 ^ 24 ∧ t.button_secondary_bg_hover < 2 ^ 24 ∧
  t.button_secondary_text < 2 ^ 24 ∧ t.button_secondary_border < 2 ^ 24 ∧
  t.text_primary < 2 ^ 24 ∧ t.text_secondary < 2 ^ 24 ∧ t.text_error < 2 ^ 24

lemma chanR_lt (c : Nat) : chanR c < 256 := by
  simpa using Nat.and_lt_two_pow (c >>> 16) (show (0xFF : Nat) < 2 ^ 8 by norm_num)

lemma chanG_lt (c : Nat) : chanG c < 256 := by
  simpa using Nat.and_lt_two_pow (c >>> 8) (show (0xFF : Nat) < 2 ^ 8 by norm_num)

lemma chanB_lt (c : Nat) : chanB c < 256 := by
  simpa using Nat.and_lt_two_pow c (show (0xFF : Nat) < 2 ^ 8 by norm_num)

lemma darkChan_le_self (ch : Nat) {f : ℚ} (hf : f ≤ 1) : darkChan ch f ≤ ch := by
  have h : (ch : ℚ) * f ≤ (ch : ℚ) := by
    calc (ch : ℚ) * f ≤ (ch : ℚ) * 1 := mul_le_mul_of_nonneg_left hf (by positivity)
      _ = (ch : ℚ) := mul_one _
  calc darkChan ch f ≤ (Int.floor ((ch : ℚ))).toNat :=
        Int.toNat_le_toNat (Int.floor_le_floor h)
    _ = ch := by simp

lemma darkChan_lt (ch : Nat) {f : ℚ} (hch : ch < 256) (hf : f ≤ 1) : darkChan ch f < 256 :=
  lt_of_le_of_lt (darkChan_le_self ch hf) hch

lemma darkChan_mono (ch : Nat) {f1 f2 : ℚ} (h : f1 ≤ f2) : darkChan ch f1 ≤ darkChan ch f2 :=
  Int.toNat_le_toNat (Int.floor_le_floor (mul_le_mul_of_nonneg_left h (by positivity)))

lemma darkChan_one (ch : Nat) : darkChan ch 1 = ch := by simp [darkChan]

lemma combine_eq {r g b : Nat} (hg : g < 256) (hb : b < 256) :
    (r <<< 16) ||| (g <<< 8) ||| b = r * 65536 + g * 256 + b := by
  have h1 : (g <<< 8) ||| b = 2 ^ 8 * g + b := by
    rw [Nat.shiftLeft_eq, Nat.mul_comm]
    exact (Nat.mul_add_lt_is_or (by omega) g).symm
  have h2 : 2 ^ 8 * g + b < 2 ^ 16 := by omega
  rw [Nat.or_assoc, h1, Nat.shiftLeft_eq, Nat.mul_comm r (2 ^ 16)]
  rw [← Nat.mul_add_lt_is_or h2 r]
  ring

lemma chanR_combine {r g b : Nat} (hr : r < 256) (hg : g < 256) (hb : b < 256) :
    chanR (r * 65536 + g * 256 + b) = r := by
  unfold chanR
  rw [Nat.shiftRight_eq_div_pow, show (0xFF : Nat) = 2 ^ 8 - 1 by norm_num,
    Nat.and_pow_two_sub_one_eq_mod]
  norm_num
  omega

lemma chanG_combine {r g b : Nat} (hg : g < 256) (hb : b < 256) :
    chanG (r * 65536 + g * 256 + b) = g := by
  unfold chanG
  rw [Nat.shiftRight_eq_div_pow, show (0xFF : Nat) = 2 ^ 8 - 1 by norm_num,
    Nat.and_pow_two_sub_one_eq_mod]
  norm_num
  omega

lemma chanB_combine {r g b : Nat} (hb : b < 256) :
    chanB (r * 65536 + g * 256 + b) = b := by
  unfold chanB
  rw [show (0xFF : Nat) = 2 ^ 8 - 1 by norm_num, Nat.and_pow_two_sub_one_eq_mod]
  norm_num
  omega

lemma chan_decomp (c : Nat) (h : c < 2 ^ 24) :
    chanR c * 65536 + chanG c * 256 + chanB c = c := by
  unfold chanR chanG chanB
  rw [Nat.shiftRight_eq_div_pow, Nat.shiftRight_eq_div_pow,
    show (0xFF : Nat) = 2 ^ 8 - 1 by norm_num,
    Nat.and_pow_two_sub_one_eq_mod, Nat.and_pow_two_sub_one_eq_mod,
    Nat.and_pow_two_sub_one_eq_mod]
  norm_num
  omega

lemma darken_color_arith (c : Nat) {f : ℚ} (hf : f ≤ 1) :
    Theme.darken_color c f
      = darkChan (chanR c) f * 65536 + darkChan (chanG c) f * 256 + darkChan (chanB c) f := by
  have hg : darkChan (chanG c) f < 256 := darkChan_lt _ (chanG_lt c) hf
  have hb : darkChan (chanB c) f < 256 := darkChan_lt _ (chanB_lt c) hf
  show (darkChan (chanR c) f <<< 16) ||| (darkChan (chanG c) f <<< 8) ||| darkChan (chanB c) f
      = _
  exact combine_eq hg hb

lemma chanR_darken (c : Nat) {f : ℚ} (hf : f ≤ 1) :
    chanR (Theme.darken_color c f) = darkChan (chanR c) f := by
  rw [darken_color_arith c hf]
  exact chanR_combine (darkChan_lt _ (chanR_lt c) hf) (darkChan_lt _ (chanG_lt c) hf)
    (darkChan_lt _ (chanB_lt c) hf)

lemma chanG_darken (c : Nat) {f : ℚ} (hf : f ≤ 1) :
    chanG (Theme.darken_color c f) = darkChan (chanG c) f := by
  rw [darken_color_arith c hf]
  exact chanG_combine (darkChan_lt _ (chanG_lt c) hf) (darkChan_lt _ (chanB_lt c) hf)

lemma chanB_darken (c : Nat) {f : ℚ} (hf : f ≤ 1) :
    chanB (Theme.darken_color c f) = darkChan (chanB c) f := by
  rw [darken_color_arith c hf]
  exact chanB_combine (darkChan_lt _ (chanB_lt c) hf)

lemma darken_color_lt (c : Nat) {f : ℚ} (hf : f ≤ 1) : Theme.darken_color c f < 2 ^ 24 := by
  rw [darken_color_arith c hf]
  have h1 : darkChan (chanR c) f < 256 := darkChan_lt _ (chanR_lt c) hf
  have h2 : darkChan (chanG c) f < 256 := darkChan_lt _ (chanG_lt c) hf
  have h3 : darkChan (chanB c) f < 256 := darkChan_lt _ (chanB_lt c) hf
  omega

lemma macos_wf (d : Bool) (a : Option Nat) (h : ∀ c ∈ a, c < 2 ^ 24) :
    (Theme.macos_with_preferences d a).wellFormed := by
  have ha : a.getD 0x007AFF < 2 ^ 24 := by
    cases a with
    | none => norm_num
    | some c => simpa using h c rfl
  have hd : Theme.darken_color (a.getD 0x007AFF) (9 / 10) < 2 ^ 24 :=
    darken_color_lt _ (by norm_num)
  cases d <;>
    refine ⟨?_, ?_, ?_, ?_, ?_, ?_, ?_, ?_, ?_, ?_, ?_, ?_, ?_, ?_, ?_, ?_, ?_, ?_, ?_,
      ?_, ?_, ?_, ?_, ?_⟩ <;>
    norm_num [Theme.macos_with_preferences, ha, hd] <;> omega

lemma windows_wf (d : Bool) (a : Option Nat) (h : ∀ c ∈ a, c < 2 ^ 24) :
    (Theme.windows_with_preferences d a).wellFormed := by
  have ha : a.getD 0x0078D4 < 2 ^ 24 := by
    cases a with
    | none => norm_num
    | some c => simpa using h c rfl
  have hd : Theme.darken_color (a.getD 0x0078D4) (9 / 10) < 2 ^ 24 :=
    darken_color_lt _ (by norm_num)
  cases d <;>
    refine ⟨?_, ?_, ?_, ?_, ?_, ?_, ?_, ?_, ?_, ?_, ?_, ?_, ?_, ?_, ?_, ?_, ?_, ?_, ?_,
      ?_, ?_, ?_, ?_, ?_⟩ <;>
    norm_num [Theme.windows_with_preferences, ha, hd] <;> omega

lemma linux_wf (d : Bool) (a : Option Nat) (h : ∀ c ∈ a, c < 2 ^ 24) :
    (Theme.linux_with_preferences d a).wellFormed := by
  have ha : a.getD 0x3584E4 < 2 ^ 24 := by
    cases a with
    | none => norm_num
    | some c => simpa using h c rfl
  have hd : Theme.darken_color (a.getD 0x3584E4) (9 / 10) < 2 ^ 24 :=
    darken_color_lt _ (by norm_num)
  cases d <;>
    refine ⟨?_, ?_, ?_, ?_, ?_, ?_, ?_, ?_, ?_, ?_, ?_, ?_, ?_, ?_, ?_, ?_, ?_, ?_, ?_,
      ?_, ?_, ?_, ?_, ?_⟩ <;>
    norm_num [Theme.linux_with_preferences, ha, hd] <;> omega

/-- C1: for every platform builder and every input, `input_border_focused`
and `button_primary_bg` both equal the single resolved accent
`accent_color.unwrap_or(platform default)`, and `button_primary_bg_hover` is
derived from that same resolved accent via `darken`. -/
theorem accent_propagation (p : Platform) (is_dark : Bool) (accent_color : Option Nat) :
    (Theme.build p is_dark accent_color).input_border_focused
      = accent_color.getD (Theme.default_accent p)
    ∧ (Theme.build p is_dark accent_color).button_primary_bg
      = accent_color.getD (Theme.default_accent p)
    ∧ (Theme.build p is_dark accent_color).button_primary_bg_hover
      = Theme.darken_color (accent_color.getD (Theme.default_accent p)) (9 / 10) := by
  cases p <;> cases is_dark <;>
    simp [Theme.build, Theme.macos_with_preferences, Theme.windows_with_preferences,
      Theme.linux_with_preferences, Theme.default_accent]

/-- C2: for every platform builder and every input,
`button_primary_bg_hover = darken(resolved_accent, 0.9)`, where `darken`
scales each 8-bit channel independently and truncates toward zero with no
clamping; in particular a channel value of 255 at factor 0.9 yields 229. -/
theorem hover_derivation (p : Platform) (is_dark : Bool) (accent_color : Option Nat) :
    (Theme.build p is_dark accent_color).button_primary_bg_hover
      = Theme.darken_color (accent_color.getD (Theme.default_accent p)) (9 / 10)
    ∧ (∀ c : Nat, Theme.darken_color c (9 / 10)
        = darkChan (chanR c) (9 / 10) * 65536 + darkChan (chanG c) (9 / 10) * 256
            + darkChan (chanB c) (9 / 10))
    ∧ darkChan 255 (9 / 10) = 229 := by
  refine ⟨?_, fun c => darken_color_arith c (by norm_num), ?_⟩
  · cases p <;> cases is_dark <;>
      simp [Theme.build, Theme.macos_with_preferences, Theme.windows_with_preferences,
        Theme.linux_with_preferences, Theme.default_accent]
  · norm_num [darkChan]
    rfl

/-- C3: for every platform tag, dark-mode flag, and optional 24-bit accent,
the palette builder returns a complete `Theme`: it is total by construction,
and every color field holds a concrete valid 24-bit value with the metric a
concrete positive height. -/
theorem build_total (p : Platform) (is_dark : Bool) (accent_color : Option Nat)
    (h : ∀ c ∈ accent_color, c < 2 ^ 24) :
    (Theme.build p is_dark accent_color).wellFormed := by
  cases p
  · exact macos_wf is_dark accent_color h
  · exact windows_wf is_dark accent_color h
  · exact linux_wf is_dark accent_color h

theorem build_total_witness :
    (∀ c ∈ some 0x123456, c < 2 ^ 24)
    ∧ (Theme.build .MacOS true (some 0x123456)).wellFormed :=
  ⟨by simp, build_total .MacOS true (some 0x123456) (by simp)⟩

/-- C4: a preference-probe failure (GTK init failing, no settings object, or
null results) is never an error: the probed fields degrade to
`dark_mode = false` and `accent_color = None`, the resolvers still hand those
defaults to the builders, the builders resolve the platform fallback accent,
and resolution still yields a complete `Theme`. -/
theorem probe_failure_degrades (env : GtkEnv)
    (h : env.init_ok = false ∨ env.settings = none ∨
      ∃ s, env.settings = some s ∧ s.gtk_theme_name = none
        ∧ s.gtk_application_prefer_dark_theme = none) :
    Theme.get_gtk_dark_mode env = false
    ∧ Theme.get_gtk_accent_color env = none
    ∧ Theme.linux_system env = Theme.linux_with_preferences false none
    ∧ (Theme.linux_system env).button_primary_bg = Theme.default_accent .Linux
    ∧ Theme.macos_system = Theme.macos_with_preferences false none
    ∧ Theme.macos_system.button_primary_bg = Theme.default_accent .MacOS
    ∧ Theme.windows_system = Theme.windows_with_preferences false none
    ∧ Theme.windows_system.button_primary_bg = Theme.default_accent .Windows
    ∧ (Theme.linux_system env).wellFormed := by
  have hdark : Theme.get_gtk_dark_mode env = false := by
    rcases h with h | h | ⟨s, hs, hname, hpref⟩ <;>
      simp [Theme.get_gtk_dark_mode, *]
  have haccent : Theme.get_gtk_accent_color env = none := by
    rcases h with h | h | ⟨s, hs, hname, hpref⟩ <;>
      simp [Theme.get_gtk_accent_color, *]
  have hsys : Theme.linux_system env = Theme.linux_with_preferences false none := by
    rw [Theme.linux_system, hdark, haccent]
  refine ⟨hdark, haccent, hsys, ?_, rfl, ?_, rfl, ?_, ?_⟩
  · rw [hsys]
    simp [Theme.linux_with_preferences, Theme.default_accent]
  · simp [Theme.macos_system, Theme.macos_with_preferences, Theme.default_accent]
  · simp [Theme.windows_system, Theme.windows_with_preferences, Theme.default_accent]
  · rw [hsys]
    exact linux_wf false none (by simp)

theorem probe_failure_degrades_witness :
    Theme.get_gtk_dark_mode ⟨false, none⟩ = false
    ∧ Theme.get_gtk_accent_color ⟨false, none⟩ = none
    ∧ Theme.linux_system ⟨false, none⟩ = Theme.linux_with_preferences false none
    ∧ (Theme.linux_system ⟨false, none⟩).button_primary_bg = Theme.default_accent .Linux
    ∧ Theme.macos_system = Theme.macos_with_preferences false none
    ∧ Theme.macos_system.button_primary_bg = Theme.default_accent .MacOS
    ∧ Theme.windows_system = Theme.windows_with_preferences false none
    ∧ Theme.windows_system.button_primary_bg = Theme.default_accent .Windows
    ∧ (Theme.linux_system ⟨false, none⟩).wellFormed :=
  probe_failure_degrades ⟨false, none⟩ (Or.inl rfl)

/-- C5: the Windows builder at `dark_mode = false`, `accent_color = None`
yields `button_primary_bg = 0x0078D4` (the Windows default accent) and
`titlebar_height = 32.0`. -/
theorem windows_light_default_scenario :
    (Theme.build .Windows false none).button_primary_bg = 0x0078D4
    ∧ (Theme.build .Windows false none).titlebar_height = 32 :=
  ⟨rfl, rfl⟩

/-- C6: `darken` is channel-wise monotone in the factor: for `0 ≤ f1 < f2 ≤ 1`
every channel of `darken(c, f1)` is at most the corresponding channel of
`darken(c, f2)`. -/
theorem darken_monotone_in_factor (c : Nat) (f1 f2 : ℚ)
    (h0 : 0 ≤ f1) (h12 : f1 < f2) (h2 : f2 ≤ 1) :
    chanR (Theme.darken_color c f1) ≤ chanR (Theme.darken_color c f2)
    ∧ chanG (Theme.darken_color c f1) ≤ chanG (Theme.darken_color c f2)
    ∧ chanB (Theme.darken_color c f1) ≤ chanB (Theme.darken_color c f2) := by
  have hf1 : f1 ≤ 1 := le_of_lt (lt_of_lt_of_le h12 h2)
  rw [chanR_darken c hf1, chanR_darken c h2, chanG_darken c hf1, chanG_darken c h2,
    chanB_darken c hf1, chanB_darken c h2]
  exact ⟨darkChan_mono _ (le_of_lt h12), darkChan_mono _ (le_of_lt h12),
    darkChan_mono _ (le_of_lt h12)⟩

theorem darken_monotone_in_factor_witness :
    ((0 : ℚ) ≤ 1 / 2 ∧ (1 : ℚ) / 2 < 9 / 10 ∧ (9 : ℚ) / 10 ≤ 1)
    ∧ (chanR (Theme.darken_color 0xFF8040 (1 / 2)) ≤ chanR (Theme.darken_color 0xFF8040 (9 / 10))
      ∧ chanG (Theme.darken_color 0xFF8040 (1 / 2)) ≤ chanG (Theme.darken_color 0xFF8040 (9 / 10))
      ∧ chanB (Theme.darken_color 0xFF8040 (1 / 2)) ≤ chanB (Theme.darken_color 0xFF8040 (9 / 10))) :=
  ⟨⟨by norm_num, by norm_num, by norm_num⟩,
    darken_monotone_in_factor 0xFF8040 (1 / 2) (9 / 10) (by norm_num) (by norm_num) (by norm_num)⟩

/-- C7: `darken` is the identity at factor 1.0: for every 24-bit color `c`,
`darken(c, 1.0) = c`. -/
theorem darken_identity_at_one (c : Nat) (h : c < 2 ^ 24) :
    Theme.darken_color c 1 = c := by
  rw [darken_color_arith c le_rfl, darkChan_one, darkChan_one, darkChan_one]
  exact chan_decomp c h

theorem darken_identity_at_one_witness :
    (0x007AFF : Nat) < 2 ^ 24 ∧ Theme.darken_color 0x007AFF 1 = 0x007AFF :=
  ⟨by norm_num, darken_identity_at_one 0x007AFF (by norm_num)⟩

/-- C8: on macOS all six window-control colors are fixed constants, identical
across dark and light mode and for every accent; on Windows the dark-mode and
light-mode window-control color tables differ. -/
theorem window_control_constancy (d1 : Bool) (a1 a2 : Option Nat) :
    ((Theme.macos_with_preferences d1 a1).close_button_bg = 0xFF5F57
      ∧ (Theme.macos_with_preferences d1 a1).close_button_corner = 0xE04943
      ∧ (Theme.macos_with_preferences d1 a1).minimize_button_bg = 0xFF8D2E
      ∧ (Theme.macos_with_preferences d1 a1).minimize_button_corner = 0xDEA123
      ∧ (Theme.macos_with_preferences d1 a1).maximize_button_bg = 0x28C940
      ∧ (Theme.macos_with_preferences d1 a1).maximize_button_corner = 0x1AAB29)
    ∧ ((Theme.windows_with_preferences true a1).minimize_button_bg
        ≠ (Theme.windows_with_preferences false a2).minimize_button_bg
      ∧ (Theme.windows_with_preferences true a1).minimize_button_corner
        ≠ (Theme.windows_with_preferences false a2).minimize_button_corner
      ∧ (Theme.windows_with_preferences true a1).maximize_button_bg
        ≠ (Theme.windows_with_preferences false a2).maximize_button_bg
      ∧ (Theme.windows_with_preferences true a1).maximize_button_corner
        ≠ (Theme.windows_with_preferences false a2).maximize_button_corner) := by
  cases d1 <;>
    simp [Theme.macos_with_preferences, Theme.windows_with_preferences]

/-- C9: for every 24-bit color and factor in `[0, 1]`, every channel of
`darken_color` stays at or below the corresponding input channel, the result
is a valid 24-bit value, and each output channel is exactly the independently
scaled input channel: no channel's bits overflow into another despite the
absence of masking after the shifts. -/
theorem darken_channel_bounds (c : Nat) (f : ℚ) (hc : c < 2 ^ 24)
    (h0 : 0 ≤ f) (h1 : f ≤ 1) :
    chanR (Theme.darken_color c f) ≤ chanR c
    ∧ chanG (Theme.darken_color c f) ≤ chanG c
    ∧ chanB (Theme.darken_color c f) ≤ chanB c
    ∧ Theme.darken_color c f ≤ 0xFFFFFF
    ∧ chanR (Theme.darken_color c f) = darkChan (chanR c) f
    ∧ chanG (Theme.darken_color c f) = darkChan (chanG c) f
    ∧ chanB (Theme.darken_color c f) = darkChan (chanB c) f := by
  have hlt := darken_color_lt c h1
  refine ⟨?_, ?_, ?_, by omega, chanR_darken c h1, chanG_darken c h1, chanB_darken c h1⟩
  · rw [chanR_darken c h1]
    exact darkChan_le_self _ h1
  · rw [chanG_darken c h1]
    exact darkChan_le_self _ h1
  · rw [chanB_darken c h1]
    exact darkChan_le_self _ h1

theorem darken_channel_bounds_witness :
    ((0xFFFFFF : Nat) < 2 ^ 24 ∧ (0 : ℚ) ≤ 9 / 10 ∧ (9 : ℚ) / 10 ≤ 1)
    ∧ (chanR (Theme.darken_color 0xFFFFFF (9 / 10)) ≤ chanR 0xFFFFFF
      ∧ chanG (Theme.darken_color 0xFFFFFF (9 / 10)) ≤ chanG 0xFFFFFF
      ∧ chanB (Theme.darken_color 0xFFFFFF (9 / 10)) ≤ chanB 0xFFFFFF
      ∧ Theme.darken_color 0xFFFFFF (9 / 10) ≤ 0xFFFFFF
      ∧ chanR (Theme.darken_color 0xFFFFFF (9 / 10)) = darkChan (chanR 0xFFFFFF) (9 / 10)
      ∧ chanG (Theme.darken_color 0xFFFFFF (9 / 10)) = darkChan (chanG 0xFFFFFF) (9 / 10)
      ∧ chanB (Theme.darken_color 0xFFFFFF (9 / 10)) = darkChan (chanB 0xFFFFFF) (9 / 10)) :=
  ⟨⟨by norm_num, by norm_num, by norm_num⟩,
    darken_channel_bounds 0xFFFFFF (9 / 10) (by norm_num) (by norm_num) (by norm_num)⟩

/-- C10: the titlebar height of a built theme depends only on the platform,
never on the preferences: macOS always 22.0, Windows always 32.0. -/
theorem titlebar_height_platform_determined (d1 d2 : Bool) (a1 a2 : Option Nat) :
    (Theme.macos_with_preferences d1 a1).titlebar_height = 22
    ∧ (Theme.macos_with_preferences d2 a2).titlebar_height = 22
    ∧ (Theme.windows_with_preferences d1 a1).titlebar_height = 32
    ∧ (Theme.windows_with_preferences d2 a2).titlebar_height = 32 := by
  cases d1 <;> cases d2 <;>
    simp [Theme.macos_with_preferences, Theme.windows_with_preferences]
